import Mathlib

/-!
# Verification of the vpptop terminal UI against its specification

Shallow embedding of the vpptop sources (PANTHEONtech/vpptop):

* `gui/xtui` scrolling/filtering table (`Table`, `ScrollUp`, `ScrollDown`,
  `SetRect`, `PageUp`, `PageDown`, `AppendToFilter`, `ReduceFilter`,
  `reCalcView`, `Draw`) from `gui/colortheme.go` (third document: the
  `xtui` table widget, plus its unit tests which we replay below);
* the table view (`TableView.Filter`, `TableView.Update`) from
  `gui/views/tableview.go`;
* the client application (`NewApp` sort state, the poll cycle of `App.Run`
  for the Interfaces tab, the sort-confirm callback) from the `client`
  package (`unnamed/part_011`), with the sorting helpers
  (`sortNodeStats`, `sortInterfaceStats`) from `unnamed/part_010` and the
  stats API types from `unnamed/part_008` / `unnamed/part_004`.

Go strings are modelled as token lists (`List Char`): the code only ever
concatenates, truncates, slices and compares them byte-wise, so a token
list is a faithful abstraction of the byte string.  Go `int` fields are
`Int`; Go `uint64`/`uint32` counters are `Nat` with explicit `% 2^64`
where Go wraps.
-/

namespace VppTop

/-- A Go string: cells, filter text and names, modelled as a token list. -/
abbrev Str := List Char

/-- One physical table row: a slice of cell strings (`[]string`). -/
abbrev Row := List Str

/-- Shorthand for turning a Lean string literal into the token-list model. -/
def str (s : String) : Str := s.toList

/-- `xtui.EmptyCell`: the empty cell `""`. -/
def emptyCell : Str := []

/-- Byte-wise test that `pat` starts `s`; building block for `containsSub`. -/
def leadsWith : Str → Str → Bool
  | [], _ => true
  | _ :: _, [] => false
  | a :: ps, b :: bs => a == b && leadsWith ps bs

/-- Go `strings.Contains(s, pat)` on the token-list model: `pat` occurs
contiguously inside `s` (the empty pattern always matches). -/
def containsSub (pat : Str) : Str → Bool
  | [] => pat.isEmpty
  | b :: bs => leadsWith pat (b :: bs) || containsSub pat bs

/-- Go byte-wise string order `a < b` (lexicographic). -/
def ltStr : Str → Str → Bool
  | [], [] => false
  | [], _ :: _ => true
  | _ :: _, [] => false
  | a :: as, b :: bs => if a < b then true else if b < a then false else ltStr as bs

/-- `skipRows`: rows occupied by the widget header, from `gui/colortheme.go`. -/
def skipRows : Int := 2

/-- The `xtui.Table` state from `gui/colortheme.go`.  `widgetRows` models the
embedded `t.Table.Rows` of the underlying termui widget (the rows of the last
render); the row-style map painted by `paintActiveRow` carries no information
the claims mention and is not tracked. -/
structure Table where
  /-- `out`: the rows that are going to be rendered (the filtered set). -/
  out : List Row
  /-- `Rows`: the raw rows of the table. -/
  Rows : List Row
  /-- `t.Table.Rows`: the slice handed to the underlying termui widget. -/
  widgetRows : List Row
  /-- `offset` from the first row of the table. -/
  offset : Int
  /-- `visibleRows`: number of rows that will be displayed. -/
  visibleRows : Int
  /-- current `height` of the table. -/
  height : Int
  /-- `curr`: position in the table. -/
  curr : Int
  /-- `prev`: the previous position `curr` held. -/
  prev : Int
  /-- `filter`: the `bytes.Buffer` holding the filter text. -/
  filter : Str
  /-- `filterColumn`: column the filter applies to (`-1` disables). -/
  filterColumn : Int
  /-- `rowsPerEntry`: physical rows per logical entry. -/
  rowsPerEntry : Int
  deriving Repr, DecidableEq

/-- `NewTable`: the default instance (colors are not tracked). -/
def newTable : Table :=
  { out := [], Rows := [], widgetRows := [], offset := 0, visibleRows := 0,
    height := 0, curr := 0, prev := 0, filter := [], filterColumn := -1,
    rowsPerEntry := 1 }

/-- `Table.resetPositions`. -/
def resetPositions (t : Table) : Table :=
  { t with offset := 0, prev := t.curr, curr := 0 }

/-- `Table.AppendToFilter`: write `s` to the filter buffer and reset. -/
def appendToFilter (s : Str) (t : Table) : Table :=
  resetPositions { t with filter := t.filter ++ s }

/-- `Table.ReduceFilter(n)`: remove the last `n` bytes written; out-of-range
`n` is rejected up front (the `avoid panic` guard in the source). -/
def reduceFilter (n : Int) (t : Table) : Table :=
  if n > (t.filter.length : Int) ∨ n < 0 then t
  else resetPositions { t with filter := t.filter.take (t.filter.length - n.toNat) }

/-- `Table.InitFilter`. -/
def initFilter (column rowsPerEntry : Int) (t : Table) : Table :=
  { t with filterColumn := column, rowsPerEntry := rowsPerEntry }

/-- `Table.SetRect(x, y, x1, y2)`: the embedded widget geometry is reduced to
its effect on `height`/`visibleRows`/`curr`/`prev`. -/
def setRect (_x y _x1 y2 : Int) (t : Table) : Table :=
  let t :=
    if y2 - y - skipRows < t.visibleRows then
      let t := { t with prev := t.curr, curr := t.curr - 1 }
      if t.curr < 0 then { t with prev := t.curr, curr := 0 } else t
    else t
  { t with height := y2 - y, visibleRows := y2 - y - skipRows }

/-- `Table.ScrollUp`. -/
def scrollUp (t : Table) : Table :=
  if t.curr > 0 then
    { t with prev := t.curr, curr := t.curr - 1 }
  else if t.offset > 0 then
    { t with offset := t.offset - 1 }
  else t

/-- `Table.ScrollDown`. -/
def scrollDown (t : Table) : Table :=
  if t.curr < t.visibleRows - 1 then
    { t with prev := t.curr, curr := t.curr + 1 }
  else if t.offset + t.visibleRows < (t.out.length : Int) then
    { t with offset := t.offset + 1 }
  else t

/-- The `for i := 0; i < skip; i++` loop shared by `PageDown`/`PageUp`. -/
def scrollLoop (f : Table → Table) : Nat → Table → Table
  | 0, t => t
  | n + 1, t => scrollLoop f n (f t)

/-- `Table.PageDown`: `skip := t.visibleRows - 1` repetitions of `ScrollDown`
(none when `skip ≤ 0`, as in the Go loop). -/
def pageDown (t : Table) : Table :=
  scrollLoop scrollDown (t.visibleRows - 1).toNat t

/-- `Table.PageUp`. -/
def pageUp (t : Table) : Table :=
  scrollLoop scrollUp (t.visibleRows - 1).toNat t

/-- One unfolding step structure of the filtering loop of `Table.Draw`,
recursing on explicit fuel so that the definition is structural (and hence
kernel-computable); `filterChunks` below supplies `rows.length` fuel, which
always suffices because each iteration consumes at least one row. -/
def filterChunksF (rpe col : Nat) (filt : Str) : Nat → List Row → List Row
  | _, [] => []
  | 0, _ :: _ => []
  | fuel + 1, r0 :: rest =>
      (if containsSub filt (r0.getD col []) then (r0 :: rest).take rpe else [])
        ++ filterChunksF rpe col filt fuel (rest.drop (rpe - 1))

/-- The filtering loop of `Table.Draw`: walk `Rows` in strides of
`rowsPerEntry`, test `strings.Contains(Rows[i][filterColumn], filter)` on the
stride's first row and copy the whole stride on a match.  A missing column is
read as the empty cell and a short final stride is copied as far as it exists
(the Go code would panic there; the claims all assume well-formed tables with
`len(Rows) % rowsPerEntry == 0` and wide-enough rows).  `rpe = 0` yields `[]`
(the Go loop would not terminate). -/
def filterChunks (rpe col : Nat) (filt : Str) (rows : List Row) : List Row :=
  filterChunksF rpe col filt rows.length rows

/-- The fuel of `filterChunksF` is irrelevant once it covers the list. -/
lemma filterChunksF_stable (rpe col : Nat) (filt : Str) :
    ∀ (f : Nat) (l : List Row), l.length ≤ f →
      filterChunksF rpe col filt f l = filterChunks rpe col filt l := by
  intro f
  induction f using Nat.strong_induction_on with
  | _ f ih =>
    intro l hle
    cases l with
    | nil => cases f <;> rfl
    | cons r0 rest =>
        cases f with
        | zero => simp at hle
        | succ f =>
            have h1 := ih f (by omega) (rest.drop (rpe - 1))
              (by simp only [List.length_drop]
                  simp only [List.length_cons] at hle
                  omega)
            have h2 := ih rest.length (by simp only [List.length_cons] at hle; omega)
              (rest.drop (rpe - 1)) (by simp only [List.length_drop]; omega)
            simp only [filterChunks, List.length_cons, filterChunksF]
            rw [h1, h2]

/-- `Table.reCalcView`: clamp `visibleRows` to the available height and the
available rows and publish the visible slice to the widget.  The Go slice
`t.out[t.offset : t.offset+t.visibleRows]` is modelled by drop-then-take. -/
def reCalcView (t : Table) : Table :=
  if t.out.length = 0 then t
  else
    let v1 : Int := if t.visibleRows < t.height - skipRows then
        t.height - skipRows else t.visibleRows
    let v2 : Int := if t.offset + v1 > (t.out.length : Int) then
        (t.out.length : Int) - t.offset else v1
    let v3 : Int := if v2 < 0 then 0 else v2
    { t with visibleRows := v3,
             widgetRows := (t.out.drop t.offset.toNat).take v3.toNat }

/-- `Table.Draw` without the terminal buffer: recompute `out` from the filter
(substituting the blank placeholder row sized by the previous render when
nothing matches) and run `reCalcView`.  The final early return on an empty
widget row set and the row painting touch no tracked state. -/
def draw (t : Table) : Table :=
  let out :=
    if t.filter ≠ [] ∧ 0 ≤ t.filterColumn then
      let fr := filterChunks t.rowsPerEntry.toNat t.filterColumn.toNat t.filter t.Rows
      if fr = [] then
        match t.widgetRows with
        | [] => fr
        | r :: _ => [List.replicate r.length ([] : Str)]
      else fr
    else t.Rows
  reCalcView { t with out := out }

/-- The operations claim C1 ranges over: `ScrollUp`, `ScrollDown`,
`Resize` (`SetRect`) and the two filter-text mutations. -/
inductive TableOp where
  | up : TableOp
  | down : TableOp
  | resize (x y x1 y2 : Int) : TableOp
  | appendFilter (s : Str) : TableOp
  | reduceFilterBy (n : Int) : TableOp
  deriving Repr

/-- Interpret one `TableOp`. -/
def applyOp : TableOp → Table → Table
  | .up, t => scrollUp t
  | .down, t => scrollDown t
  | .resize x y x1 y2, t => setRect x y x1 y2 t
  | .appendFilter s, t => appendToFilter s t
  | .reduceFilterBy n, t => reduceFilter n t

/-- Interpret a finite sequence of table operations, first to last. -/
def applyOps (ops : List TableOp) (t : Table) : Table :=
  ops.foldl (fun s op => applyOp op s) t

/-- `TableView.Filter` from `gui/views/tableview.go`: diff the incoming full
filter text against the current one and append or reduce accordingly. -/
def tableViewFilter (text : Str) (t : Table) : Table :=
  if text.length < t.filter.length then
    reduceFilter ((t.filter.length : Int) - (text.length : Int)) t
  else if text.length > t.filter.length then
    appendToFilter (text.drop t.filter.length) t
  else t

/-- `TableView.Update`: replace the raw rows (the lock only guards the
concurrent access and carries no state). -/
def tableViewUpdate (rows : List Row) (t : Table) : Table :=
  { t with Rows := rows }

/-! ## Replay of the repository's own unit tests (`table_test.go`)

These theorems check the embedding against the test vectors shipped with the
widget, case for case. -/

/-- Build a test table the way `table_test.go` does. -/
def testTable (visibleRows curr prev offset : Int) (out : List Row) : Table :=
  { newTable with visibleRows := visibleRows, curr := curr, prev := prev,
                  offset := offset, out := out }

/-- `TestTable_ScrollUp`: all six test vectors. -/
theorem scrollUp_matches_repo_tests :
    (scrollUp (testTable 2 0 0 0 []) = testTable 2 0 0 0 []) ∧
    (scrollUp (testTable 2 1 0 0 []) = testTable 2 0 1 0 []) ∧
    (scrollUp (testTable 5 0 0 3 []) = testTable 5 0 0 2 []) ∧
    (scrollUp (testTable 10 2 1 5 []) = testTable 10 1 2 5 []) ∧
    (scrollUp (testTable 10 0 1 5 []) = testTable 10 0 1 4 []) ∧
    (scrollUp (testTable 10 0 1 0 []) = testTable 10 0 1 0 []) := by
  decide

/-- `TestTable_ScrollDown`: all five test vectors (`out` has six rows). -/
theorem scrollDown_matches_repo_tests :
    (scrollDown (testTable 2 0 0 0 (List.replicate 6 [[]])) =
      testTable 2 1 0 0 (List.replicate 6 [[]])) ∧
    (scrollDown (testTable 2 1 0 0 (List.replicate 6 [[]])) =
      testTable 2 1 0 1 (List.replicate 6 [[]])) ∧
    (scrollDown (testTable 2 0 0 3 (List.replicate 6 [[]])) =
      testTable 2 1 0 3 (List.replicate 6 [[]])) ∧
    (scrollDown (testTable 2 1 0 3 (List.replicate 6 [[]])) =
      testTable 2 1 0 4 (List.replicate 6 [[]])) ∧
    (scrollDown (testTable 1 2 1 5 (List.replicate 6 [[]])) =
      testTable 1 2 1 5 (List.replicate 6 [[]])) := by
  decide

/-- `TestTable_ReduceFilter`: all eight test vectors. -/
theorem reduceFilter_matches_repo_tests :
    ((reduceFilter 1 { newTable with filter := str "node" }).filter = str "nod") ∧
    ((reduceFilter 1 newTable).filter = []) ∧
    ((reduceFilter 2 newTable).filter = []) ∧
    ((reduceFilter (-1) newTable).filter = []) ∧
    ((reduceFilter 3 { newTable with filter := str "arm-pc" }).filter = str "arm") ∧
    ((reduceFilter 5 { newTable with filter := str "arm-pc" }).filter = str "a") ∧
    ((reduceFilter 6 { newTable with filter := str "arm-pc" }).filter = []) ∧
    ((reduceFilter 7 { newTable with filter := str "arm-pc" }).filter = str "arm-pc") := by
  decide

/-- `TestTable_AppendToFilter`: all four test vectors. -/
theorem appendToFilter_matches_repo_tests :
    ((appendToFilter (str "node") newTable).filter = str "node") ∧
    ((appendToFilter (str "") newTable).filter = str "") ∧
    ((appendToFilter (str "dpdk-65") newTable).filter = str "dpdk-65") ∧
    ((appendToFilter (str "arm-pc") newTable).filter = str "arm-pc") := by
  decide

/-! ## Claim C1: viewport invariants under scroll/resize/filter sequences -/

/-- The viewport property claimed by the spec: `0 ≤ cursor < visibleCount`
(cursor clamped to 0 when `visibleCount == 0`), `0 ≤ offset`, and
`offset + visibleCount ≤ len(filteredRows)` (the `out` row set). -/
def viewInv (t : Table) : Prop :=
  ((0 ≤ t.curr ∧ t.curr < t.visibleRows) ∨ (t.visibleRows = 0 ∧ t.curr = 0)) ∧
    0 ≤ t.offset ∧ t.offset + t.visibleRows ≤ (t.out.length : Int)

instance (t : Table) : Decidable (viewInv t) := by
  unfold viewInv
  exact inferInstance

/-- Whether a `TableOp` is a `Resize`. -/
def isResize : TableOp → Bool
  | .resize _ _ _ _ => true
  | _ => false

lemma applyOp_nonneg (op : TableOp) (t : Table)
    (hc : 0 ≤ t.curr) (ho : 0 ≤ t.offset) :
    0 ≤ (applyOp op t).curr ∧ 0 ≤ (applyOp op t).offset := by
  cases op with
  | up => simp only [applyOp, scrollUp]; split_ifs <;> simp_all <;> omega
  | down => simp only [applyOp, scrollDown]; split_ifs <;> simp_all <;> omega
  | resize x y x1 y2 =>
      simp only [applyOp, setRect]; split_ifs <;> simp_all
  | appendFilter s => simp [applyOp, appendToFilter, resetPositions]
  | reduceFilterBy n =>
      simp only [applyOp, reduceFilter]
      split_ifs
      · exact ⟨hc, ho⟩
      · simp [resetPositions]

lemma applyOp_inv (op : TableOp) (t : Table) (hnr : isResize op = false)
    (hv : 0 ≤ t.visibleRows) (h : viewInv t) :
    viewInv (applyOp op t) ∧ 0 ≤ (applyOp op t).visibleRows := by
  obtain ⟨h1, h2, h3⟩ := h
  cases op with
  | up =>
      simp only [applyOp, scrollUp, viewInv]
      split_ifs <;> simp_all <;> omega
  | down =>
      simp only [applyOp, scrollDown, viewInv]
      split_ifs <;> simp_all <;> omega
  | resize x y x1 y2 => simp [isResize] at hnr
  | appendFilter s =>
      simp only [applyOp, appendToFilter, resetPositions, viewInv]
      simp
      omega
  | reduceFilterBy n =>
      simp only [applyOp, reduceFilter, viewInv]
      split_ifs
      · exact ⟨⟨h1, h2, h3⟩, hv⟩
      · simp only [resetPositions]
        simp
        omega

/-- Amendment of C1.  The claimed invariants do hold along any sequence of
`ScrollUp`/`ScrollDown`/filter-text operations from a state that satisfies
them and has `0 ≤ visibleRows`; and over sequences that do include `Resize`
only the lower bounds `0 ≤ cursor` and `0 ≤ offset` are invariant
(from any start state satisfying them), because `SetRect` neither clamps
`visibleRows` at zero nor restores the two upper bounds. -/
theorem c1_viewport_invariant_amended :
    ∀ (ops : List TableOp) (t : Table),
      ((∀ op ∈ ops, isResize op = false) → 0 ≤ t.visibleRows → viewInv t →
          viewInv (applyOps ops t) ∧ 0 ≤ (applyOps ops t).visibleRows) ∧
      (0 ≤ t.curr → 0 ≤ t.offset →
          0 ≤ (applyOps ops t).curr ∧ 0 ≤ (applyOps ops t).offset) := by
  intro ops
  induction ops with
  | nil => intro t; exact ⟨fun _ hv h => ⟨h, hv⟩, fun hc ho => ⟨hc, ho⟩⟩
  | cons op rest ih =>
      intro t
      constructor
      · intro hops hv h
        have hstep := applyOp_inv op t (hops op (List.mem_cons_self op rest)) hv h
        have := (ih (applyOp op t)).1 (fun o ho => hops o (List.mem_cons_of_mem op ho))
          hstep.2 hstep.1
        simpa [applyOps] using this
      · intro hc ho
        have hstep := applyOp_nonneg op t hc ho
        have := (ih (applyOp op t)).2 hstep.1 hstep.2
        simpa [applyOps] using this

/-- Witness for the amended C1 at a concrete state and operation sequence. -/
theorem c1_amended_witness :
    viewInv (applyOps [TableOp.down, TableOp.appendFilter (str "x"), TableOp.up]
        { newTable with out := [[], [], []], visibleRows := 2 }) ∧
      0 ≤ (applyOps [TableOp.resize 0 0 10 1] newTable).curr ∧
      0 ≤ (applyOps [TableOp.resize 0 0 10 1] newTable).offset := by
  refine ⟨((c1_viewport_invariant_amended
      [TableOp.down, TableOp.appendFilter (str "x"), TableOp.up]
      { newTable with out := [[], [], []], visibleRows := 2 }).1
      (by decide) (by decide) (by decide)).1, ?_⟩
  have h := (c1_viewport_invariant_amended [TableOp.resize 0 0 10 1] newTable).2
    (by decide) (by decide)
  exact h

/-- Counterexample to C1 as stated: a single `Resize` breaks each upper
bound.  `SetRect(0,0,10,10)` on the fresh table makes `visibleRows = 8`
with no rows, violating `offset + visibleCount ≤ len(filteredRows)`;
`SetRect(0,0,10,1)` makes `visibleRows = -1`, violating
`0 ≤ cursor < visibleCount` with `visibleCount ≠ 0`. -/
theorem c1_counterexample :
    ¬ viewInv (applyOps [TableOp.resize 0 0 10 10] newTable) ∧
      ¬ viewInv (applyOps [TableOp.resize 0 0 10 1] newTable) ∧
      (applyOps [TableOp.resize 0 0 10 1] newTable).visibleRows = -1 := by
  decide

/-! ## Claim C2: the concrete four-ScrollDown scenario -/

/-- The scenario table of C2: 6 filtered rows, `rowsPerEntry = 2`,
`visibleCount = 2`, starting at `offset = 0`, `cursor = 0`. -/
def c2Table : Table :=
  { newTable with out := List.replicate 6 [[]], visibleRows := 2,
                  rowsPerEntry := 2 }

/-- Counterexample to C2 as stated: the first three `ScrollDown` calls do
produce `(0,1)`, `(1,1)`, `(2,1)`, but the fourth is not a no-op — at
`offset = 2` we still have `offset + visibleCount = 4 < 6`. -/
theorem c2_counterexample :
    ((scrollDown c2Table).offset, (scrollDown c2Table).curr) = (0, 1) ∧
    ((scrollLoop scrollDown 2 c2Table).offset,
      (scrollLoop scrollDown 2 c2Table).curr) = (1, 1) ∧
    ((scrollLoop scrollDown 3 c2Table).offset,
      (scrollLoop scrollDown 3 c2Table).curr) = (2, 1) ∧
    ¬ (((scrollLoop scrollDown 4 c2Table).offset,
      (scrollLoop scrollDown 4 c2Table).curr) = (2, 1)) := by
  decide

/-- Amendment of C2: the four calls produce `(0,1), (1,1), (2,1), (3,1)`;
scrolling saturates only at `offset = 4`, where
`offset + visibleCount = len(rows) = 6` makes further calls no-ops. -/
theorem c2_scroll_sequence_amended :
    ((scrollLoop scrollDown 4 c2Table).offset,
      (scrollLoop scrollDown 4 c2Table).curr) = (3, 1) ∧
    ((scrollLoop scrollDown 5 c2Table).offset,
      (scrollLoop scrollDown 5 c2Table).curr) = (4, 1) ∧
    scrollDown (scrollLoop scrollDown 5 c2Table) =
      scrollLoop scrollDown 5 c2Table := by
  decide

/-! ## Claim C6: PageDown/PageUp as repeated single steps -/

lemma scrollLoop_eq_iterate (f : Table → Table) (n : Nat) (t : Table) :
    scrollLoop f n t = f^[n] t := by
  induction n generalizing t with
  | zero => rfl
  | succ n ih => simp [scrollLoop, Function.iterate_succ_apply, ih]

/-- C6: one `PageDown` call equals `visibleCount - 1` consecutive
`ScrollDown` calls (and `PageUp` likewise with `ScrollUp`), on every
starting state — the whole resulting state agrees, in particular offset and
cursor. -/
theorem c6_page_equals_repeated_scroll :
    ∀ t : Table,
      pageDown t = scrollDown^[(t.visibleRows - 1).toNat] t ∧
      pageUp t = scrollUp^[(t.visibleRows - 1).toNat] t := by
  intro t
  exact ⟨scrollLoop_eq_iterate scrollDown _ t, scrollLoop_eq_iterate scrollUp _ t⟩

/-! ## Claim C8: idempotence of applying the same filter text -/

lemma tableViewFilter_len (text : Str) (t : Table) :
    (tableViewFilter text t).filter.length = text.length := by
  unfold tableViewFilter
  split_ifs with h1 h2
  · unfold reduceFilter
    rw [if_neg (by omega)]
    simp only [resetPositions, List.length_take]
    omega
  · simp only [appendToFilter, resetPositions, List.length_append,
      List.length_drop]
    omega
  · omega

/-- C8: two consecutive `TableView.Filter` events carrying the identical
full text leave the table exactly in the state reached after one — the
second pass is a no-op because filter lengths agree, so the filtered row
set and the whole viewport (`offset`, `curr`, `prev`) coincide. -/
theorem c8_filter_idempotent :
    ∀ (text : Str) (t : Table),
      tableViewFilter text (tableViewFilter text t) = tableViewFilter text t := by
  intro text t
  have h := tableViewFilter_len text t
  generalize hu : tableViewFilter text t = u at h ⊢
  unfold tableViewFilter
  rw [if_neg (by omega), if_neg (by omega)]

/-! ## Claim C9: totality and exactness of ReduceFilter -/

/-- C9: `ReduceFilter(n)` never truncates out of range — for `n < 0` or
`n` beyond the filter length the whole state (filter, offset, cursor,
previous cursor) is untouched; otherwise exactly the last `n` bytes are
removed and the viewport resets to `offset = 0`, `cursor = 0`. -/
theorem c9_reduce_filter_total :
    ∀ (t : Table) (n : Int),
      ((n < 0 ∨ (t.filter.length : Int) < n) → reduceFilter n t = t) ∧
      (0 ≤ n → n ≤ (t.filter.length : Int) →
        (reduceFilter n t).filter = t.filter.take (t.filter.length - n.toNat) ∧
        ((reduceFilter n t).filter.length : Int) = (t.filter.length : Int) - n ∧
        (reduceFilter n t).offset = 0 ∧ (reduceFilter n t).curr = 0 ∧
        (reduceFilter n t).prev = t.curr) := by
  intro t n
  constructor
  · intro h
    unfold reduceFilter
    rw [if_pos (by omega)]
  · intro h1 h2
    unfold reduceFilter
    rw [if_neg (by omega)]
    refine ⟨rfl, ?_, rfl, rfl, rfl⟩
    simp only [resetPositions, List.length_take]
    omega

/-- Witness for C9 at the concrete filter `"arm-pc"` with `n = -1`, `n = 7`
(both out of range, untouched) and `n = 2` (in range). -/
theorem c9_reduce_filter_total_witness :
    reduceFilter (-1) { newTable with filter := str "arm-pc" } =
        { newTable with filter := str "arm-pc" } ∧
      reduceFilter 7 { newTable with filter := str "arm-pc" } =
        { newTable with filter := str "arm-pc" } ∧
      (reduceFilter 2 { newTable with filter := str "arm-pc" }).filter =
        (str "arm-pc").take 4 ∧
      (reduceFilter 2 { newTable with filter := str "arm-pc" }).offset = 0 ∧
      (reduceFilter 2 { newTable with filter := str "arm-pc" }).curr = 0 := by
  refine ⟨(c9_reduce_filter_total { newTable with filter := str "arm-pc" }
      (-1)).1 (by decide),
    (c9_reduce_filter_total { newTable with filter := str "arm-pc" } 7).1
      (by decide), ?_, ?_, ?_⟩
  · exact ((c9_reduce_filter_total { newTable with filter := str "arm-pc" } 2).2
      (by decide) (by decide)).1
  · exact ((c9_reduce_filter_total { newTable with filter := str "arm-pc" } 2).2
      (by decide) (by decide)).2.2.1
  · exact ((c9_reduce_filter_total { newTable with filter := str "arm-pc" } 2).2
      (by decide) (by decide)).2.2.2.1

/-! ## Claims C4 and C5: filter application and entry integrity -/

lemma reCalcView_out (t : Table) : (reCalcView t).out = t.out := by
  unfold reCalcView
  split_ifs <;> rfl

/-- C4: applying the filter in `Draw` tests `Contains(rawRow[column], text)`
against only the first physical row of each `rowsPerEntry`-sized entry and
copies the whole entry on a match; when nothing matches, a single blank
placeholder row with the column count of the previous render is
substituted; and both filter-text mutations reset the viewport to
`offset = 0`, `cursor = 0`. -/
theorem c4_filter_application :
    (∀ (rpe col : Nat) (filt : Str) (e rest : List Row),
        0 < rpe → e.length = rpe →
        filterChunks rpe col filt (e ++ rest) =
          (if containsSub filt ((e.headD []).getD col []) then e else []) ++
            filterChunks rpe col filt rest) ∧
    (∀ (t : Table) (r : Row) (rs : List Row),
        t.filter ≠ [] → 0 ≤ t.filterColumn →
        filterChunks t.rowsPerEntry.toNat t.filterColumn.toNat t.filter t.Rows
          = [] →
        t.widgetRows = r :: rs →
        (draw t).out = [List.replicate r.length ([] : Str)]) ∧
    (∀ (t : Table) (s : Str),
        (appendToFilter s t).offset = 0 ∧ (appendToFilter s t).curr = 0) ∧
    (∀ (t : Table) (n : Int), 0 ≤ n → n ≤ (t.filter.length : Int) →
        (reduceFilter n t).offset = 0 ∧ (reduceFilter n t).curr = 0) := by
  refine ⟨?_, ?_, ?_, ?_⟩
  · intro rpe col filt e rest hrpe hlen
    cases e with
    | nil => simp at hlen; omega
    | cons r0 e2 =>
        have hlen2 : e2.length = rpe - 1 := by
          simp only [List.length_cons] at hlen; omega
        rw [List.cons_append]
        show filterChunksF rpe col filt (r0 :: (e2 ++ rest)).length
          (r0 :: (e2 ++ rest)) = _
        rw [List.length_cons, List.length_append]
        simp only [filterChunksF]
        have h1 : (r0 :: (e2 ++ rest)).take rpe = r0 :: e2 := by
          cases rpe with
          | zero => omega
          | succ m =>
              rw [List.take_succ_cons]
              have hm : e2.length = m := by omega
              rw [← hm, List.take_left]
        have h2 : (e2 ++ rest).drop (rpe - 1) = rest := by
          rw [← hlen2, List.drop_left]
        rw [h1, h2, filterChunksF_stable rpe col filt (e2.length + rest.length)
          rest (by omega)]
        rfl
  · intro t r rs hf hc hfr hw
    simp only [draw]
    rw [reCalcView_out]
    show (if t.filter ≠ [] ∧ 0 ≤ t.filterColumn then _ else t.Rows) = _
    rw [if_pos ⟨hf, hc⟩, hfr, if_pos rfl, hw]
  · intro t s
    exact ⟨rfl, rfl⟩
  · intro t n h1 h2
    unfold reduceFilter
    rw [if_neg (by omega)]
    exact ⟨rfl, rfl⟩

/-- A concrete table whose filter matches no entry: two physical rows
forming one entry (`rowsPerEntry = 2`), a previous render of one row with
three columns, and filter text `"q"` on column 0. -/
def noMatchTable : Table :=
  { newTable with Rows := [[str "aa"], [str "bb"]],
                  widgetRows := [[str "x", str "y", str "z"]],
                  filter := str "q", filterColumn := 0, rowsPerEntry := 2 }

/-- Witness for C4 at concrete inputs: one matching entry of two rows is
copied whole (decided by its first row only), `noMatchTable` renders the
blank three-column placeholder, and both filter mutations reset the
viewport. -/
theorem c4_filter_application_witness :
    filterChunks 2 0 (str "vpp")
        ([[str "vpp0"], [str ""]] ++ [[str "eth0"], [str ""]]) =
      (if containsSub (str "vpp")
            (([[str "vpp0"], [str ""]].headD (α := Row) []).getD 0 []) then
          [[str "vpp0"], [str ""]] else []) ++
        filterChunks 2 0 (str "vpp") [[str "eth0"], [str ""]] ∧
    (draw noMatchTable).out = [List.replicate 3 ([] : Str)] ∧
    ((appendToFilter (str "x") newTable).offset = 0 ∧
      (appendToFilter (str "x") newTable).curr = 0) ∧
    ((reduceFilter 1 { newTable with filter := str "ab" }).offset = 0 ∧
      (reduceFilter 1 { newTable with filter := str "ab" }).curr = 0) := by
  refine ⟨c4_filter_application.1 2 0 (str "vpp") [[str "vpp0"], [str ""]]
      [[str "eth0"], [str ""]] (by decide) (by decide),
    ?_,
    c4_filter_application.2.2.1 newTable (str "x"),
    c4_filter_application.2.2.2 { newTable with filter := str "ab" } 1
      (by decide) (by decide)⟩
  have h := c4_filter_application.2.1 noMatchTable [str "x", str "y", str "z"]
    [] (by decide) (by decide) (by decide) rfl
  simpa using h

/-- Counterexample to C5 as stated: `noMatchTable` has two physical rows
(`2 % rowsPerEntry = 0`), yet applying the filter leaves a single
placeholder row, and `1 % 2 ≠ 0` — the filtered row set shown is not a
multiple of `rowsPerEntry`. -/
theorem c5_counterexample :
    noMatchTable.Rows.length % 2 = 0 ∧ noMatchTable.rowsPerEntry = 2 ∧
      (draw noMatchTable).out.length % 2 = 1 := by
  decide

/-- Amendment of C5: the row set produced by the matching loop itself is
always a multiple of `rowsPerEntry` (entries are never split); only the
no-match placeholder — a single blank row — can break the multiple. -/
theorem c5_entry_integrity_amended :
    ∀ (rpe col : Nat) (filt : Str) (rows : List Row),
      0 < rpe → rows.length % rpe = 0 →
      (filterChunks rpe col filt rows).length % rpe = 0 := by
  intro rpe col filt rows hrpe
  suffices H : ∀ (n : Nat) (l : List Row), l.length ≤ n → l.length % rpe = 0 →
      (filterChunksF rpe col filt n l).length % rpe = 0 from
    fun h => H rows.length rows le_rfl h
  intro n
  induction n with
  | zero =>
      intro l hle _
      have : l = [] := List.eq_nil_of_length_eq_zero (by omega)
      subst this
      simp [filterChunksF]
  | succ n ih =>
      intro l hle hmod
      cases l with
      | nil => simp [filterChunksF]
      | cons r0 rest =>
          have hge : rpe ≤ rest.length + 1 := by
            by_contra hlt
            have : (r0 :: rest).length % rpe = (r0 :: rest).length := by
              apply Nat.mod_eq_of_lt
              simp only [List.length_cons]
              omega
            simp only [List.length_cons] at hmod this
            omega
          have hdropmod : (rest.drop (rpe - 1)).length % rpe = 0 := by
            have hmod1 : (rest.length + 1) % rpe = 0 := by
              simpa using hmod
            have hdvd : rpe ∣ rest.length + 1 := Nat.dvd_of_mod_eq_zero hmod1
            have : (rest.drop (rpe - 1)).length = rest.length + 1 - rpe := by
              simp only [List.length_drop]
              omega
            rw [this]
            exact Nat.mod_eq_zero_of_dvd (Nat.dvd_sub' hdvd dvd_rfl)
          have hrec := ih (rest.drop (rpe - 1))
            (by simp only [List.length_drop]; simp only [List.length_cons] at hle; omega)
            hdropmod
          simp only [filterChunksF, List.length_append]
          split_ifs with hc
          · have htake : ((r0 :: rest).take rpe).length = rpe := by
              simp only [List.length_take, List.length_cons]
              omega
            rw [htake, Nat.add_mod_left]
            exact hrec
          · simpa using hrec

/-- Witness for the amended C5 at a four-row table with two-row entries. -/
theorem c5_amended_witness :
    (filterChunks 2 0 (str "a")
        [[str "ab"], [str ""], [str "cd"], [str ""]]).length % 2 = 0 := by
  exact c5_entry_integrity_amended 2 0 (str "a")
    [[str "ab"], [str ""], [str "cd"], [str ""]] (by decide) (by decide)

/-! ## The client application: tab indices, sort state, sorting, formatting

From the `client` package (`unnamed/part_011` for `NewApp`/`App.Run`,
`unnamed/part_010` for the sort helpers, `unnamed/part_008`/`part_004` for
the stats API types). -/

/-- Tab index `Interfaces` (the `iota` block of the client package). -/
def Interfaces : Int := 0
/-- Tab index `Nodes`. -/
def Nodes : Int := 1
/-- Tab index `Errors`. -/
def Errors : Int := 2
/-- Tab index `Memory`. -/
def Memory : Int := 3
/-- Tab index `Threads`. -/
def Threads : Int := 4

/-- Modelled from the spec: `NoColumn` is the sentinel that disables
sorting/filtering (a negative column, per the spec's `column < 0 disables
filtering`); the constants file defining it is not among the provided
sources, which only use it. -/
def NoColumn : Int := -1

/-- Modelled from the spec: the node sort-column constants, in the order of
the sort overlay's item list (which the sources require to match the sort
switch); their defining constants file is not among the provided sources. -/
def NodeStatNodeName : Int := 0
/-- Node sort column: index. -/
def NodeStatNodeIndex : Int := 1
/-- Node sort column: clocks. -/
def NodeStatNodeClocks : Int := 2
/-- Node sort column: vectors. -/
def NodeStatNodeVectors : Int := 3
/-- Node sort column: calls. -/
def NodeStatNodeCalls : Int := 4
/-- Node sort column: suspends. -/
def NodeStatNodeSuspends : Int := 5
/-- Node sort column: vectors per call. -/
def NodeStatNodeVC : Int := 6

/-- Modelled from the spec: the interface sort-column constants, numbered in
the order of the sort overlay's item list (`Name`, `Index`, `State`,
`MTU-L3`, ..., `IP6`); their defining constants file is not among the
provided sources. -/
def IfaceStatIfaceName : Int := 0
/-- Interface sort column constants, continued in overlay order. -/
def IfaceStatIfaceIdx : Int := 1
def IfaceStatIfaceState : Int := 2
def IfaceStatIfaceMTUL3 : Int := 3
def IfaceStatIfaceMTUIP4 : Int := 4
def IfaceStatIfaceMTUIP6 : Int := 5
def IfaceStatIfaceMTUMPLS : Int := 6
def IfaceStatIfaceRxPackets : Int := 7
def IfaceStatIfaceRxBytes : Int := 8
def IfaceStatIfaceRxErrors : Int := 9
def IfaceStatIfaceRxUnicastPackets : Int := 10
def IfaceStatIfaceRxUnicastBytes : Int := 11
def IfaceStatIfaceRxMulticastPackets : Int := 12
def IfaceStatIfaceRxMulticastBytes : Int := 13
def IfaceStatIfaceRxBroadcastPackets : Int := 14
def IfaceStatIfaceRxBroadcastBytes : Int := 15
def IfaceStatIfaceTxPackets : Int := 16
def IfaceStatIfaceTxBytes : Int := 17
def IfaceStatIfaceTxErrors : Int := 18
def IfaceStatIfaceTxUnicastMissPackets : Int := 19
def IfaceStatIfaceTxUnicastMissBytes : Int := 20
def IfaceStatIfaceTxMulticastPackets : Int := 21
def IfaceStatIfaceTxMulticastBytes : Int := 22
def IfaceStatIfaceTxBroadcastPackets : Int := 23
def IfaceStatIfaceTxBroadcastBytes : Int := 24
def IfaceStatIfaceDrops : Int := 25
def IfaceStatIfacePunts : Int := 26
def IfaceStatIfaceIP4 : Int := 27
def IfaceStatIfaceIP6 : Int := 28

/-- One per-tab sort specification from `App.sortBy`. -/
structure SortBy where
  /-- whether the order is ascending. -/
  asc : Bool
  /-- the sorted column (`NoColumn` disables sorting). -/
  field : Int
  deriving Repr, DecidableEq

/-- The initial `App.sortBy` built in `NewApp`: five entries, each set to
`field = NoColumn` and `asc = !asc` — the zero value `false` flipped to
`true`. -/
def initSortBy : List SortBy :=
  List.replicate 5 { asc := true, field := NoColumn }

/-- One arm of the sort-confirm callback: `sortBy[i].field = row;
sortBy[i].asc = !sortBy[i].asc`. -/
def toggleAt (l : List SortBy) (i : Nat) (row : Int) : List SortBy :=
  l.set i { field := row, asc := !(l.getD i { asc := false, field := 0 }).asc }

/-- The `AddOnSortCallback` body of `App.Run`: switch on the event's
`CurrTab` — only the three sortable tabs have a case (the Go indices
`Interfaces`, `Nodes`, `Errors` are `0`, `1`, `2`, used as list positions
here); any other tab falls through the switch untouched. -/
def onSortEvent (currTab currRow : Int) (sortBy : List SortBy) : List SortBy :=
  if currTab = Interfaces then toggleAt sortBy 0 currRow
  else if currTab = Nodes then toggleAt sortBy 1 currRow
  else if currTab = Errors then toggleAt sortBy 2 currRow
  else sortBy

/-- `govppapi.InterfaceCounterCombined`: a packets/bytes pair (`uint64`). -/
structure NetCounter where
  packets : Nat
  bytes : Nat
  deriving Repr, DecidableEq

/-- `api.Interface` (embedding `govppapi.InterfaceCounters`) with the fields
the client reads: counters, addresses, state and MTU. -/
structure Iface where
  interfaceIndex : Nat
  interfaceName : Str
  rx : NetCounter
  tx : NetCounter
  rxUnicast : NetCounter
  rxMulticast : NetCounter
  rxBroadcast : NetCounter
  txUnicast : NetCounter
  txMulticast : NetCounter
  txBroadcast : NetCounter
  rxErrors : Nat
  txErrors : Nat
  rxNoBuf : Nat
  rxMiss : Nat
  drops : Nat
  punts : Nat
  ip4 : Nat
  ip6 : Nat
  ipAddresses : List Str
  state : Str
  mtu : List Nat
  deriving Repr, DecidableEq

/-- `api.Node` (= `api.RuntimeItem`).  `Clocks` and `VectorsPerCall` are
`float64` in the source; only their linear order is ever used, so they are
modelled as integer-valued stand-ins. -/
structure Node where
  index : Nat
  name : Str
  state : Str
  calls : Nat
  vectors : Nat
  suspends : Nat
  clocks : Int
  vectorsPerCall : Int
  deriving Repr, DecidableEq

/-- Insertion of one element in front of the first place its `less` allows;
building block of `sortSlice`. -/
def insertLess (less : α → α → Bool) (a : α) : List α → List α
  | [] => [a]
  | b :: bs => if less a b then a :: b :: bs else b :: insertLess less a bs

/-- Model of Go `sort.Slice(x, less)`: a permutation of the input that is
sorted with respect to `less` (insertion sort here; Go's pdqsort is
unstable, but every conforming sort agrees on the slices with pairwise
distinct keys used by the theorems below). -/
def sortSlice (less : α → α → Bool) : List α → List α
  | [] => []
  | a :: as => insertLess less a (sortSlice less as)

/-- The `switch field` of `sortNodeStats`: the comparator, if the field has
a case. -/
def nodeLessFor (field : Int) (asc : Bool) : Option (Node → Node → Bool) :=
  if field = NodeStatNodeName then
    some (fun a b => if asc then ltStr a.name b.name else ltStr b.name a.name)
  else if field = NodeStatNodeIndex then
    some (fun a b => if asc then decide (a.index < b.index)
      else decide (b.index < a.index))
  else if field = NodeStatNodeClocks then
    some (fun a b => if asc then decide (a.clocks < b.clocks)
      else decide (b.clocks < a.clocks))
  else if field = NodeStatNodeVectors then
    some (fun a b => if asc then decide (a.vectors < b.vectors)
      else decide (b.vectors < a.vectors))
  else if field = NodeStatNodeCalls then
    some (fun a b => if asc then decide (a.calls < b.calls)
      else decide (b.calls < a.calls))
  else if field = NodeStatNodeSuspends then
    some (fun a b => if asc then decide (a.suspends < b.suspends)
      else decide (b.suspends < a.suspends))
  else if field = NodeStatNodeVC then
    some (fun a b => if asc then decide (a.vectorsPerCall < b.vectorsPerCall)
      else decide (b.vectorsPerCall < a.vectorsPerCall))
  else none

/-- `App.sortNodeStats`: no-op on `NoColumn`, otherwise `sort.Slice` with
the selected comparator.  For a field outside the switch Go would call
`sort.Slice` with a nil comparator and panic; that unreachable case is
modelled as the identity. -/
def sortNodeStats (field : Int) (asc : Bool) (l : List Node) : List Node :=
  if field = NoColumn then l
  else
    match nodeLessFor field asc with
    | some less => sortSlice less l
    | none => l

/-- The `switch field` of `sortInterfaceStats`.  The `TxUnicastMissBytes`
descending branch reproduces the source verbatim, including its comparison
of `Bytes` against `Packets` (`interfaceStats[i].TxUnicast.Bytes >
interfaceStats[j].TxUnicast.Packets`). -/
def ifaceLessFor (field : Int) (asc : Bool) : Option (Iface → Iface → Bool) :=
  if field = IfaceStatIfaceName then
    some (fun a b => if asc then ltStr a.interfaceName b.interfaceName
      else ltStr b.interfaceName a.interfaceName)
  else if field = IfaceStatIfaceIdx then
    some (fun a b => if asc then decide (a.interfaceIndex < b.interfaceIndex)
      else decide (b.interfaceIndex < a.interfaceIndex))
  else if field = IfaceStatIfaceState then
    some (fun a b => if asc then ltStr a.state b.state else ltStr b.state a.state)
  else if field = IfaceStatIfaceMTUL3 then
    some (fun a b => if asc then decide (a.mtu.getD 0 0 < b.mtu.getD 0 0)
      else decide (b.mtu.getD 0 0 < a.mtu.getD 0 0))
  else if field = IfaceStatIfaceMTUIP4 then
    some (fun a b => if asc then decide (a.mtu.getD 1 0 < b.mtu.getD 1 0)
      else decide (b.mtu.getD 1 0 < a.mtu.getD 1 0))
  else if field = IfaceStatIfaceMTUIP6 then
    some (fun a b => if asc then decide (a.mtu.getD 2 0 < b.mtu.getD 2 0)
      else decide (b.mtu.getD 2 0 < a.mtu.getD 2 0))
  else if field = IfaceStatIfaceMTUMPLS then
    some (fun a b => if asc then decide (a.mtu.getD 3 0 < b.mtu.getD 3 0)
      else decide (b.mtu.getD 3 0 < a.mtu.getD 3 0))
  else if field = IfaceStatIfaceRxPackets then
    some (fun a b => if asc then decide (a.rx.packets < b.rx.packets)
      else decide (b.rx.packets < a.rx.packets))
  else if field = IfaceStatIfaceRxBytes then
    some (fun a b => if asc then decide (a.rx.bytes < b.rx.bytes)
      else decide (b.rx.bytes < a.rx.bytes))
  else if field = IfaceStatIfaceRxErrors then
    some (fun a b => if asc then decide (a.rxErrors < b.rxErrors)
      else decide (b.rxErrors < a.rxErrors))
  else if field = IfaceStatIfaceRxUnicastPackets then
    some (fun a b => if asc then decide (a.rxUnicast.packets < b.rxUnicast.packets)
      else decide (b.rxUnicast.packets < a.rxUnicast.packets))
  else if field = IfaceStatIfaceRxUnicastBytes then
    some (fun a b => if asc then decide (a.rxUnicast.bytes < b.rxUnicast.bytes)
      else decide (b.rxUnicast.bytes < a.rxUnicast.bytes))
  else if field = IfaceStatIfaceRxMulticastPackets then
    some (fun a b => if asc then decide (a.rxMulticast.packets < b.rxMulticast.packets)
      else decide (b.rxMulticast.packets < a.rxMulticast.packets))
  else if field = IfaceStatIfaceRxMulticastBytes then
    some (fun a b => if asc then decide (a.rxMulticast.bytes < b.rxMulticast.bytes)
      else decide (b.rxMulticast.bytes < a.rxMulticast.bytes))
  else if field = IfaceStatIfaceRxBroadcastPackets then
    some (fun a b => if asc then decide (a.rxBroadcast.packets < b.rxBroadcast.packets)
      else decide (b.rxBroadcast.packets < a.rxBroadcast.packets))
  else if field = IfaceStatIfaceRxBroadcastBytes then
    some (fun a b => if asc then decide (a.rxBroadcast.bytes < b.rxBroadcast.bytes)
      else decide (b.rxBroadcast.bytes < a.rxBroadcast.bytes))
  else if field = IfaceStatIfaceTxPackets then
    some (fun a b => if asc then decide (a.tx.packets < b.tx.packets)
      else decide (b.tx.packets < a.tx.packets))
  else if field = IfaceStatIfaceTxBytes then
    some (fun a b => if asc then decide (a.tx.bytes < b.tx.bytes)
      else decide (b.tx.bytes < a.tx.bytes))
  else if field = IfaceStatIfaceTxErrors then
    some (fun a b => if asc then decide (a.txErrors < b.txErrors)
      else decide (b.txErrors < a.txErrors))
  else if field = IfaceStatIfaceTxUnicastMissPackets then
    some (fun a b => if asc then decide (a.txUnicast.packets < b.txUnicast.packets)
      else decide (b.txUnicast.packets < a.txUnicast.packets))
  else if field = IfaceStatIfaceTxUnicastMissBytes then
    some (fun a b => if asc then decide (a.txUnicast.bytes < b.txUnicast.bytes)
      else decide (b.txUnicast.packets < a.txUnicast.bytes))
  else if field = IfaceStatIfaceTxMulticastPackets then
    some (fun a b => if asc then decide (a.txMulticast.packets < b.txMulticast.packets)
      else decide (b.txMulticast.packets < a.txMulticast.packets))
  else if field = IfaceStatIfaceTxMulticastBytes then
    some (fun a b => if asc then decide (a.txMulticast.bytes < b.txMulticast.bytes)
      else decide (b.txMulticast.bytes < a.txMulticast.bytes))
  else if field = IfaceStatIfaceTxBroadcastPackets then
    some (fun a b => if asc then decide (a.txBroadcast.packets < b.txBroadcast.packets)
      else decide (b.txBroadcast.packets < a.txBroadcast.packets))
  else if field = IfaceStatIfaceTxBroadcastBytes then
    some (fun a b => if asc then decide (a.txBroadcast.bytes < b.txBroadcast.bytes)
      else decide (b.txBroadcast.bytes < a.txBroadcast.bytes))
  else if field = IfaceStatIfaceDrops then
    some (fun a b => if asc then decide (a.drops < b.drops)
      else decide (b.drops < a.drops))
  else if field = IfaceStatIfacePunts then
    some (fun a b => if asc then decide (a.punts < b.punts)
      else decide (b.punts < a.punts))
  else if field = IfaceStatIfaceIP4 then
    some (fun a b => if asc then decide (a.ip4 < b.ip4)
      else decide (b.ip4 < a.ip4))
  else if field = IfaceStatIfaceIP6 then
    some (fun a b => if asc then decide (a.ip6 < b.ip6)
      else decide (b.ip6 < a.ip6))
  else none

/-- `App.sortInterfaceStats` (same structure as `sortNodeStats`). -/
def sortInterfaceStats (field : Int) (asc : Bool) (l : List Iface) : List Iface :=
  if field = NoColumn then l
  else
    match ifaceLessFor field asc with
    | some less => sortSlice less l
    | none => l

lemma sortInterfaceStats_nil (field : Int) (asc : Bool) :
    sortInterfaceStats field asc [] = [] := by
  unfold sortInterfaceStats
  split_ifs
  · rfl
  · cases ifaceLessFor field asc <;> rfl

/-! ### `formatInterfaces` and the poll cycle of `App.Run` -/

/-- `fmt.Sprint` of an unsigned counter: its decimal digits. -/
def natStr (n : Nat) : Str := (Nat.repr n).toList

/-- Go `uint64` subtraction `a - b` with wraparound. -/
def sub64 (a b : Nat) : Nat := (a + 2 ^ 64 - b) % 2 ^ 64

/-- `fmt.Sprintf("%d/%d", p, b)` for the packets/bytes cells. -/
def slashPair (p b : Nat) : Str := natStr p ++ '/' :: natStr b

/-- `fmt.Sprintf("%d/%d/%d/%d", MTU[0], MTU[1], MTU[2], MTU[3])` (a missing
MTU entry, on which Go would panic, is read as 0). -/
def mtuStr (m : List Nat) : Str :=
  natStr (m.getD 0 0) ++ '/' :: natStr (m.getD 1 0) ++ '/' :: natStr (m.getD 2 0)
    ++ '/' :: natStr (m.getD 3 0)

/-- `strings.Split(s, "/")[0]`: the prefix before the first slash. -/
def firstComp (s : Str) : Str := s.takeWhile (fun c => !(c == '/'))

/-- The `nameToIdx` lookup of `formatInterfaces`: the map is filled in cache
order, so duplicate names resolve to the **last** occurrence. -/
def cacheLookup (cache : List Iface) (name : Str) : Option Iface :=
  cache.reverse.find? (fun c => c.interfaceName == name)

/-- The in-place IP-address loop at the end of each interface entry: row `j`
(for `j = 1, 2, ...` while addresses remain and `j` stays inside the entry)
gets its first cell overwritten with the address `ips[len-j]` stripped of
its prefix length. -/
def applyIPs (ips : List Str) (block : List Row) : List Row :=
  block.mapIdx (fun j row =>
    if 1 ≤ j ∧ j ≤ ips.length then
      row.set 0 (firstComp (ips.getD (ips.length - j) []))
    else row)

/-- The eleven rows `formatInterfaces` builds for one interface
(`RowsPerIface = 11`), exactly in source order, including the rate cells
diffed against the cached previous snapshot. -/
def ifaceBlock (cache : List Iface) (iface : Iface) : List Row :=
  let row0 : Row :=
    [iface.interfaceName, natStr iface.interfaceIndex, iface.state,
     mtuStr iface.mtu, str "Packets", natStr iface.rx.packets,
     str "Packets", natStr iface.tx.packets, natStr iface.drops,
     natStr iface.punts, natStr iface.ip4, natStr iface.ip6]
  let rates : Nat × Nat × Nat × Nat :=
    match cacheLookup cache iface.interfaceName with
    | some c =>
        (sub64 iface.rx.bytes c.rx.bytes, sub64 iface.tx.bytes c.tx.bytes,
         sub64 iface.rx.packets c.rx.packets, sub64 iface.tx.packets c.tx.packets)
    | none => (0, 0, 0, 0)
  let rxbbs := rates.1
  let txbbs := rates.2.1
  let rxpps := rates.2.2.1
  let txpps := rates.2.2.2
  let e := emptyCell
  applyIPs iface.ipAddresses
    [row0,
     [e, e, e, e, str "Packets/s", natStr rxpps, str "Packets/s", natStr txpps,
      e, e, e, e],
     [e, e, e, e, str "Bytes", natStr iface.rx.bytes, str "Bytes",
      natStr iface.tx.bytes, e, e, e, e],
     [e, e, e, e, str "Bytes/s", natStr rxbbs, str "Bytes/s", natStr txbbs,
      e, e, e, e],
     [e, e, e, e, str "Errors", natStr iface.rxErrors, str "Errors",
      natStr iface.txErrors, e, e, e, e],
     [e, e, e, e, str "Unicast", slashPair iface.rxUnicast.packets
        iface.rxUnicast.bytes, str "UnicastMiss",
      slashPair iface.txUnicast.packets iface.txUnicast.bytes, e, e, e, e],
     [e, e, e, e, str "Multicast", slashPair iface.rxMulticast.packets
        iface.rxMulticast.bytes, str "Multicast",
      slashPair iface.txMulticast.packets iface.txMulticast.bytes, e, e, e, e],
     [e, e, e, e, str "Broadcast", slashPair iface.rxBroadcast.packets
        iface.rxBroadcast.bytes, str "Broadcast",
      slashPair iface.txBroadcast.packets iface.txBroadcast.bytes, e, e, e, e],
     [e, e, e, e, str "NoBuf", natStr iface.rxNoBuf, e, e, e, e, e, e],
     [e, e, e, e, str "Miss", natStr iface.rxMiss, e, e, e, e, e, e],
     [e, e, e, e, e, e, e, e, e, e, e, e]]

/-- `App.formatInterfaces`: eleven rows per interface, then the old cache is
replaced by the freshly fetched slice (the replacement is performed by the
poll cycle below, matching `app.ifCache = ifaces`). -/
def formatInterfaces (cache : List Iface) (ifaces : List Iface) : List Row :=
  (ifaces.map (fun iface => ifaceBlock cache iface)).flatten

/-- The application state the Interfaces poll cycle touches: the rate cache,
the per-tab sort specifications and the Interfaces tab's table. -/
structure AppModel where
  ifCache : List Iface
  sortBy : List SortBy
  ifaceTable : Table
  deriving Repr, DecidableEq

/-- One `updateTicker` iteration of `App.Run` with the Interfaces tab
active, fed with the fetch result.  On `GetInterfaces` failure the code only
logs (`log.Printf`) and **falls through**: it still reads the sort spec,
sorts, formats and calls `Update` — with the nil slice the provider returned
alongside the error.  The error value itself reaches nothing but the log. -/
def pollCycleIfaces (fetched : Except Str (List Iface)) (app : AppModel) :
    AppModel :=
  let ifaces : List Iface :=
    match fetched with
    | .ok l => l
    | .error _ => []
  let s := app.sortBy.getD 0 { asc := false, field := 0 }
  let sorted := sortInterfaceStats s.field s.asc ifaces
  { app with
      ifCache := sorted,
      ifaceTable := tableViewUpdate (formatInterfaces app.ifCache sorted)
        app.ifaceTable }

/-! ## Claim C3: behaviour of the poll cycle on a fetch error -/

lemma reCalcView_empty (t : Table) (h : t.out = []) : reCalcView t = t := by
  unfold reCalcView
  rw [if_pos (by rw [h]; rfl)]

lemma draw_no_rows_keeps_widget (t : Table) (hrows : t.Rows = [])
    (hnf : t.filter = [] ∨ t.filterColumn < 0) :
    (draw t).widgetRows = t.widgetRows := by
  have hcond : ¬ (t.filter ≠ [] ∧ 0 ≤ t.filterColumn) := by
    rcases hnf with h | h
    · exact fun hc => hc.1 h
    · exact fun hc => absurd hc.2 (by omega)
  simp only [draw]
  rw [if_neg hcond, hrows, reCalcView_empty _ rfl]

/-- A concrete app state holding one previously fetched snapshot on the
Interfaces tab (one raw row, also currently rendered), with the initial
sort state and an empty rate cache. -/
def c3Table : Table :=
  { newTable with Rows := [[str "local0"]], widgetRows := [[str "local0"]] }

/-- See `c3Table`: the app state around it. -/
def c3App : AppModel :=
  { ifCache := [], sortBy := initSortBy, ifaceTable := c3Table }

/-- Counterexample to C3 as stated: when `GetInterfaces` fails, the cycle is
**not** skipped — `Update` still runs with the nil snapshot, so the tab's
row buffer does not keep the last successfully fetched rows: it is
overwritten with the empty formatted row set. -/
theorem c3_counterexample :
    ¬ ((pollCycleIfaces (Except.error (str "request failed")) c3App).ifaceTable.Rows
        = c3App.ifaceTable.Rows) := by
  decide

/-- Amendment of C3: on a fetch error the cycle logs and continues — the
row buffer is overwritten with the snapshot formatted from the nil slice
(empty rows) and the rate cache is cleared; the previously rendered widget
rows are untouched by the update itself and, provided no filter is active,
even the next `Draw` keeps them (its `reCalcView` returns early on an empty
row set), which is why the display goes stale rather than blank.  The error
value reaches only the log, never the render path. -/
theorem c3_error_cycle_amended :
    ∀ (app : AppModel) (e : Str),
      (pollCycleIfaces (Except.error e) app).ifaceTable.Rows = [] ∧
      (pollCycleIfaces (Except.error e) app).ifCache = [] ∧
      (pollCycleIfaces (Except.error e) app).ifaceTable.widgetRows =
        app.ifaceTable.widgetRows ∧
      (app.ifaceTable.filter = [] ∨ app.ifaceTable.filterColumn < 0 →
        (draw (pollCycleIfaces (Except.error e) app).ifaceTable).widgetRows =
          app.ifaceTable.widgetRows) := by
  intro app e
  have h1 : (pollCycleIfaces (Except.error e) app).ifaceTable.Rows = [] := by
    simp [pollCycleIfaces, tableViewUpdate, sortInterfaceStats_nil,
      formatInterfaces]
  refine ⟨h1, ?_, rfl, ?_⟩
  · simp [pollCycleIfaces, sortInterfaceStats_nil]
  · intro hnf
    exact draw_no_rows_keeps_widget _ h1 hnf

/-- Witness for the amended C3 at the concrete state `c3App` (no filter is
active there, so the rendered widget rows survive the next draw). -/
theorem c3_amended_witness :
    (pollCycleIfaces (Except.error (str "fetch failed")) c3App).ifaceTable.Rows
        = [] ∧
      (draw (pollCycleIfaces (Except.error (str "fetch failed"))
          c3App).ifaceTable).widgetRows = c3App.ifaceTable.widgetRows := by
  exact ⟨(c3_error_cycle_amended c3App (str "fetch failed")).1,
    (c3_error_cycle_amended c3App (str "fetch failed")).2.2.2 (Or.inl rfl)⟩

/-! ## Claim C7: sort-direction of the first and second confirm -/

/-- A node whose name precedes `nodeB`'s alphabetically. -/
def nodeA : Node :=
  { index := 1, name := str "arp-input", state := str "active", calls := 3,
    vectors := 5, suspends := 0, clocks := 10, vectorsPerCall := 1 }

/-- A node whose name follows `nodeA`'s alphabetically. -/
def nodeB : Node :=
  { index := 2, name := str "ip4-input", state := str "active", calls := 7,
    vectors := 9, suspends := 1, clocks := 20, vectorsPerCall := 2 }

/-- The sort state after confirming the overlay once on the Nodes tab's
name column, starting from the initial state of `NewApp`. -/
def confirmedOnce : List SortBy := onSortEvent Nodes NodeStatNodeName initSortBy

/-- The sort state after a second confirm on the same column. -/
def confirmedTwice : List SortBy :=
  onSortEvent Nodes NodeStatNodeName confirmedOnce

/-- Counterexample to C7 as stated: `NewApp` initialises `asc = true`, and
each confirm flips **before** the next poll sorts, so the snapshot sorted
after the first confirm comes out in *descending* name order, not
ascending — and the one after the second confirm ascending, not
descending. -/
theorem c7_counterexample :
    ltStr nodeA.name nodeB.name = true ∧
    (confirmedOnce.getD 1 { asc := true, field := NoColumn }).asc = false ∧
    sortNodeStats (confirmedOnce.getD 1 { asc := true, field := NoColumn }).field
        (confirmedOnce.getD 1 { asc := true, field := NoColumn }).asc
        [nodeA, nodeB] = [nodeB, nodeA] ∧
    ¬ (sortNodeStats
        (confirmedOnce.getD 1 { asc := true, field := NoColumn }).field
        (confirmedOnce.getD 1 { asc := true, field := NoColumn }).asc
        [nodeA, nodeB] = [nodeA, nodeB]) ∧
    sortNodeStats (confirmedTwice.getD 1 { asc := true, field := NoColumn }).field
        (confirmedTwice.getD 1 { asc := true, field := NoColumn }).asc
        [nodeB, nodeA] = [nodeA, nodeB] := by
  decide

/-- Amendment of C7: each confirm does flip the stored flag and commit the
selected column, but starting from the initial `asc = true` the snapshot
sorted after the first confirm is in *descending* order of the chosen
column and the one after the second confirm in *ascending* order. -/
theorem c7_sort_toggle_amended :
    ∀ row : Int,
      ((onSortEvent Nodes row initSortBy).getD 1
          { asc := true, field := NoColumn }).asc = false ∧
      ((onSortEvent Nodes row initSortBy).getD 1
          { asc := true, field := NoColumn }).field = row ∧
      ((onSortEvent Nodes row (onSortEvent Nodes row initSortBy)).getD 1
          { asc := true, field := NoColumn }).asc = true ∧
      ((onSortEvent Nodes row (onSortEvent Nodes row initSortBy)).getD 1
          { asc := true, field := NoColumn }).field = row ∧
      sortNodeStats NodeStatNodeName false [nodeA, nodeB] = [nodeB, nodeA] ∧
      sortNodeStats NodeStatNodeName true [nodeB, nodeA] = [nodeA, nodeB] := by
  intro row
  exact ⟨rfl, rfl, rfl, rfl, by decide, by decide⟩

/-! ## Claim C10: frame property of the sort-confirm callback -/

/-- C10: a sort-confirm whose active tab is Memory or Threads falls through
the callback's switch and leaves every tab's sort specification unchanged;
a confirm on Interfaces, Nodes or Errors touches only that tab's entry. -/
theorem c10_sort_frame :
    ∀ (l : List SortBy) (row : Int) (j : Nat),
      onSortEvent Memory row l = l ∧
      onSortEvent Threads row l = l ∧
      (j ≠ 0 → (onSortEvent Interfaces row l).getD j { asc := false, field := 0 }
        = l.getD j { asc := false, field := 0 }) ∧
      (j ≠ 1 → (onSortEvent Nodes row l).getD j { asc := false, field := 0 }
        = l.getD j { asc := false, field := 0 }) ∧
      (j ≠ 2 → (onSortEvent Errors row l).getD j { asc := false, field := 0 }
        = l.getD j { asc := false, field := 0 }) := by
  intro l row j
  have hI : onSortEvent Interfaces row l = l.set 0
      { field := row, asc := !(l.getD 0 { asc := false, field := 0 }).asc } := rfl
  have hN : onSortEvent Nodes row l = l.set 1
      { field := row, asc := !(l.getD 1 { asc := false, field := 0 }).asc } := rfl
  have hE : onSortEvent Errors row l = l.set 2
      { field := row, asc := !(l.getD 2 { asc := false, field := 0 }).asc } := rfl
  refine ⟨rfl, rfl, ?_, ?_, ?_⟩
  · intro hj
    rw [hI, List.getD_eq_getElem?_getD, List.getElem?_set_ne (by omega),
      List.getD_eq_getElem?_getD]
  · intro hj
    rw [hN, List.getD_eq_getElem?_getD, List.getElem?_set_ne (by omega),
      List.getD_eq_getElem?_getD]
  · intro hj
    rw [hE, List.getD_eq_getElem?_getD, List.getElem?_set_ne (by omega),
      List.getD_eq_getElem?_getD]

/-- Witness for C10 at the initial sort state: a Memory confirm changes
nothing, and confirms on the three sortable tabs leave the other entries as
they were. -/
theorem c10_sort_frame_witness :
    onSortEvent Memory 5 initSortBy = initSortBy ∧
      (onSortEvent Interfaces 5 initSortBy).getD 1 { asc := false, field := 0 }
        = initSortBy.getD 1 { asc := false, field := 0 } ∧
      (onSortEvent Nodes 5 initSortBy).getD 0 { asc := false, field := 0 }
        = initSortBy.getD 0 { asc := false, field := 0 } ∧
      (onSortEvent Errors 5 initSortBy).getD 4 { asc := false, field := 0 }
        = initSortBy.getD 4 { asc := false, field := 0 } := by
  exact ⟨(c10_sort_frame initSortBy 5 1).1,
    (c10_sort_frame initSortBy 5 1).2.2.1 (by decide),
    (c10_sort_frame initSortBy 5 0).2.2.2.1 (by decide),
    (c10_sort_frame initSortBy 5 4).2.2.2.2 (by decide)⟩

end VppTop
